import Mathlib

/-!
Shallow embedding of `create_icon.py` (LichessApp icon generator).

The script builds, for each size in a fixed list, a rounded-rectangle
gradient bitmap, composites a resized pawn image centered on it, saves
the PNGs and writes a `Contents.json` manifest.

Modelling conventions:
* Machine integers are `ℕ`/`ℤ`; Python float expressions of the form
  `int(expr)` over exact decimal literals are embedded as truncation of
  the exact rational value (`pyInt`).  For the values that occur here
  (sizes up to a few thousand, literals 0.02 / 0.18 / 0.7 and the
  gradient coefficients), IEEE double rounding never moves a value
  across an integer boundary, so exact rational semantics agrees with
  the float computation.
* `math.sqrt(d) <= radius` with `d` a sum of integer squares and
  `radius` a nonnegative integer is embedded as `d ≤ radius ^ 2`:
  `sqrt` is monotone and correctly rounded, so the two comparisons
  agree.
* An RGBA image is a width, a height, and a total pixel map; pixels
  outside the bitmap are the `(0, 0, 0, 0)` background, matching
  `Image.new('RGBA', (size, size), (0, 0, 0, 0))`.
* `Image.resize` with the LANCZOS filter and the per-pixel compositing
  done by `Image.paste` with an alpha mask are float-heavy PIL
  internals; they are taken as parameters (`resample`, `blend`) of the
  embedding, so every theorem about geometry holds for an arbitrary
  resampling kernel and blending function.
-/

namespace LichessIcon

/-- Python `int()` applied to an exact rational value: truncation toward
zero. -/
def pyInt (q : ℚ) : ℤ := if 0 ≤ q then ⌊q⌋ else -⌊-q⌋

/-- RGBA pixel value: red, green, blue, alpha. -/
abbrev Rgba : Type := ℕ × ℕ × ℕ × ℕ

/-- An in-memory bitmap: width, height and per-pixel RGBA values. -/
structure Image where
  width : ℕ
  height : ℕ
  pixel : ℕ → ℕ → Rgba

/-- The value `margin = int(size * 0.02)` from `create_rounded_gradient`. -/
def margin (size : ℕ) : ℤ := pyInt ((size : ℚ) * (2 / 100))

/-- The value `radius = int(size * radius_ratio)` with the default value
`0.18` of the second parameter (the script never passes another value). -/
def radius (size : ℕ) : ℤ := pyInt ((size : ℚ) * (18 / 100))

/-- The `in_rect` flag computed for pixel `(x, y)` in the loop body of
`create_rounded_gradient`: it starts `True`; each of the four corner
branches replaces it by the disc test `dist <= radius` (embedded with both
sides squared); the border branch replaces it by `False`. -/
def inRect (size : ℕ) (x y : ℤ) : Bool :=
  if x < margin size + radius size ∧ y < margin size + radius size then
    decide ((x - margin size - radius size) ^ 2 + (y - margin size - radius size) ^ 2
      ≤ radius size ^ 2)
  else if x > (size : ℤ) - margin size - radius size - 1 ∧ y < margin size + radius size then
    decide ((x - ((size : ℤ) - margin size - radius size - 1)) ^ 2
      + (y - margin size - radius size) ^ 2 ≤ radius size ^ 2)
  else if x < margin size + radius size ∧ y > (size : ℤ) - margin size - radius size - 1 then
    decide ((x - margin size - radius size) ^ 2
      + (y - ((size : ℤ) - margin size - radius size - 1)) ^ 2 ≤ radius size ^ 2)
  else if x > (size : ℤ) - margin size - radius size - 1
      ∧ y > (size : ℤ) - margin size - radius size - 1 then
    decide ((x - ((size : ℤ) - margin size - radius size - 1)) ^ 2
      + (y - ((size : ℤ) - margin size - radius size - 1)) ^ 2 ≤ radius size ^ 2)
  else if x < margin size ∨ x ≥ (size : ℤ) - margin size
      ∨ y < margin size ∨ y ≥ (size : ℤ) - margin size then
    false
  else
    true

/-- The row colour of `create_rounded_gradient`:
`ratio = y / size; r = int(235 - ratio * 45); g = int(145 - ratio * 35);
b = int(65 - ratio * 25)`. -/
def gradColor (size y : ℕ) : ℕ × ℕ × ℕ :=
  ((pyInt ((235 : ℚ) - (y : ℚ) / (size : ℚ) * 45)).toNat,
   (pyInt ((145 : ℚ) - (y : ℚ) / (size : ℚ) * 35)).toNat,
   (pyInt ((65 : ℚ) - (y : ℚ) / (size : ℚ) * 25)).toNat)

/-- Embedding of `create_rounded_gradient(size)`: a `size × size` RGBA bitmap over a
transparent background, with `putpixel((x, y), (r, g, b, 255))` exactly on
the pixels whose `in_rect` flag survives the corner and border tests. -/
def create_rounded_gradient (size : ℕ) : Image where
  width := size
  height := size
  pixel := fun x y =>
    if x < size ∧ y < size ∧ inRect size (x : ℤ) (y : ℤ) then
      ((gradColor size y).1, (gradColor size y).2.1, (gradColor size y).2.2, 255)
    else
      (0, 0, 0, 0)

/-! ### Evaluation bridges

`Rat` multiplication and inversion are `@[irreducible]`, so the kernel
cannot evaluate `pyInt` applications directly.  These lemmas reduce the
three kinds of `int()` expressions in the script to `Nat` floor division,
which both `decide` and `omega` handle. -/

lemma pyInt_natCast_div (n d : ℕ) : pyInt ((n : ℚ) / (d : ℚ)) = ((n / d : ℕ) : ℤ) := by
  rw [pyInt, if_pos (div_nonneg (Nat.cast_nonneg n) (Nat.cast_nonneg d)),
    Rat.floor_natCast_div_natCast]
  exact (Int.natCast_div n d).symm

lemma margin_eq (s : ℕ) : margin s = ((2 * s / 100 : ℕ) : ℤ) := by
  unfold margin
  rw [show (s : ℚ) * (2 / 100) = ((2 * s : ℕ) : ℚ) / ((100 : ℕ) : ℚ) by push_cast; ring,
    pyInt_natCast_div]

lemma radius_eq (s : ℕ) : radius s = ((18 * s / 100 : ℕ) : ℤ) := by
  unfold radius
  rw [show (s : ℚ) * (18 / 100) = ((18 * s : ℕ) : ℚ) / ((100 : ℕ) : ℚ) by push_cast; ring,
    pyInt_natCast_div]

lemma pyInt_sub_ratio_mul (A B N y : ℕ) (hN : 0 < N) (h : B * y ≤ A * N) :
    pyInt ((A : ℚ) - (y : ℚ) / (N : ℚ) * B) = (((A * N - B * y) / N : ℕ) : ℤ) := by
  have hNQ : ((N : ℕ) : ℚ) ≠ 0 := Nat.cast_ne_zero.mpr hN.ne'
  have hq : (A : ℚ) - (y : ℚ) / (N : ℚ) * B = ((A * N - B * y : ℕ) : ℚ) / ((N : ℕ) : ℚ) := by
    rw [Nat.cast_sub h]
    push_cast
    field_simp
    ring
  rw [hq, pyInt_natCast_div]

lemma gradColor_eq (N y : ℕ) (hN : 0 < N) (hy : y < N) :
    gradColor N y = ((235 * N - 45 * y) / N, (145 * N - 35 * y) / N, (65 * N - 25 * y) / N) := by
  have h1 : pyInt ((235 : ℚ) - (y : ℚ) / (N : ℚ) * 45) = (((235 * N - 45 * y) / N : ℕ) : ℤ) := by
    exact_mod_cast pyInt_sub_ratio_mul 235 45 N y hN (by omega)
  have h2 : pyInt ((145 : ℚ) - (y : ℚ) / (N : ℚ) * 35) = (((145 * N - 35 * y) / N : ℕ) : ℤ) := by
    exact_mod_cast pyInt_sub_ratio_mul 145 35 N y hN (by omega)
  have h3 : pyInt ((65 : ℚ) - (y : ℚ) / (N : ℚ) * 25) = (((65 * N - 25 * y) / N : ℕ) : ℤ) := by
    exact_mod_cast pyInt_sub_ratio_mul 65 25 N y hN (by omega)
  unfold gradColor
  rw [h1, h2, h3]
  simp only [Int.toNat_natCast]

example : margin 26 = 0 := by rw [margin_eq]; decide
example : radius 26 = 4 := by rw [radius_eq]; decide
example : gradColor 46 45 = (190, 110, 40) := by
  rw [gradColor_eq 46 45 (by decide) (by decide)]

/-! ### `create_icon` -/

/-- The value `pawn_size = int(size * 0.7)` from `create_icon`. -/
def pawnSize (size : ℕ) : ℕ := (pyInt ((size : ℚ) * (7 / 10))).toNat

lemma pawnSize_eq (s : ℕ) : pawnSize s = 7 * s / 10 := by
  unfold pawnSize
  rw [show (s : ℚ) * (7 / 10) = ((7 * s : ℕ) : ℚ) / ((10 : ℕ) : ℚ) by push_cast; ring,
    pyInt_natCast_div, Int.toNat_natCast]

/-- Embedding of `pawn_img.resize((w, h), Image.Resampling.LANCZOS)`: the output has the
requested dimensions; the pixel content is produced by the resampling
kernel, which the embedding keeps abstract. -/
def resize (img : Image) (w h : ℕ) (resample : Image → ℕ → ℕ → ℕ → ℕ → Rgba) : Image where
  width := w
  height := h
  pixel := resample img w h

/-- Embedding of `bg.paste(fg, (ox, oy), fg)`: pixels inside the pasted rectangle are
combined by the masked per-pixel compositing function `blend` (abstract);
all other pixels and the dimensions are unchanged. -/
def paste (bg fg : Image) (ox oy : ℕ) (blend : Rgba → Rgba → Rgba) : Image where
  width := bg.width
  height := bg.height
  pixel := fun x y =>
    if ox ≤ x ∧ x < ox + fg.width ∧ oy ≤ y ∧ y < oy + fg.height then
      blend (bg.pixel x y) (fg.pixel (x - ox) (y - oy))
    else
      bg.pixel x y

/-- Result of `create_icon`.  The Python function returns only the composited
image; the `pawnResized` and `pasteOffset` fields additionally record the
arguments of the `img.paste(pawn_resized, (offset, offset), pawn_resized)`
call on line 54 so that centering can be stated. -/
structure Icon where
  img : Image
  pawnResized : Image
  pasteOffset : ℕ × ℕ

/-- Embedding of `create_icon(size, pawn_img)`: gradient background, pawn resized to
`int(size * 0.7)` square, pasted at `offset = (size - pawn_size) // 2` on
both axes. -/
def create_icon (size : ℕ) (pawn_img : Image)
    (resample : Image → ℕ → ℕ → ℕ → ℕ → Rgba) (blend : Rgba → Rgba → Rgba) : Icon :=
  let img := create_rounded_gradient size
  let pawn_resized := resize pawn_img (pawnSize size) (pawnSize size) resample
  let offset := (size - pawnSize size) / 2
  { img := paste img pawn_resized offset offset blend
    pawnResized := pawn_resized
    pasteOffset := (offset, offset) }

/-! ### `main`: sizes, file names, manifest, filesystem effects -/

/-- The fixed macOS icon size list of `main`. -/
def sizes : List ℕ := [16, 32, 64, 128, 256, 512, 1024]

/-- The fixed output directory of `main`. -/
def icon_dir : String := "LichessApp/Assets.xcassets/AppIcon.appiconset"

/-- The PNG file name `icon_{size}x{size}.png` used by the save loop. -/
def iconFileName (size : ℕ) : String :=
  "icon_" ++ toString size ++ "x" ++ toString size ++ ".png"

/-- One record of the `images` array of `Contents.json`. -/
structure ManifestEntry where
  filename : String
  idiom : String
  scale : String
  size : String
deriving DecidableEq

/-- The ten-entry `images` array literal written to `Contents.json`. -/
def contentsImages : List ManifestEntry :=
  [{ filename := "icon_16x16.png", idiom := "mac", scale := "1x", size := "16x16" },
   { filename := "icon_32x32.png", idiom := "mac", scale := "2x", size := "16x16" },
   { filename := "icon_32x32.png", idiom := "mac", scale := "1x", size := "32x32" },
   { filename := "icon_64x64.png", idiom := "mac", scale := "2x", size := "32x32" },
   { filename := "icon_128x128.png", idiom := "mac", scale := "1x", size := "128x128" },
   { filename := "icon_256x256.png", idiom := "mac", scale := "2x", size := "128x128" },
   { filename := "icon_256x256.png", idiom := "mac", scale := "1x", size := "256x256" },
   { filename := "icon_512x512.png", idiom := "mac", scale := "2x", size := "256x256" },
   { filename := "icon_512x512.png", idiom := "mac", scale := "1x", size := "512x512" },
   { filename := "icon_1024x1024.png", idiom := "mac", scale := "2x", size := "512x512" }]

/-- The `info` object of `Contents.json`. -/
structure ContentsInfo where
  author : String
  version : ℕ
deriving DecidableEq

/-- The full `contents` dictionary of `main`. -/
structure Contents where
  images : List ManifestEntry
  info : ContentsInfo

/-- The `contents` literal of `main`. -/
def contents : Contents where
  images := contentsImages
  info := { author := "xcode", version := 1 }

/-- Filesystem and console effects accumulated by one run of `main`. -/
structure RunState where
  dirsCreated : List String
  pngsWritten : List (String × Image)
  manifestsWritten : List (String × Contents)
  printed : List String

/-- A run of `main`, as a function of its one input (the bytes at
`/tmp/pawn.png`, `none` if the file is missing) and of the two abstract PIL
kernels.  `Image.open` runs before `os.makedirs` and before the save loop,
so a missing input raises `FileNotFoundError` with no effect on the
filesystem; otherwise the directory is created, one PNG per size is saved
in list order, and `Contents.json` is written last. -/
def run_main (resample : Image → ℕ → ℕ → ℕ → ℕ → Rgba) (blend : Rgba → Rgba → Rgba)
    (pawnFile : Option Image) : RunState × Option String :=
  match pawnFile with
  | none =>
      ({ dirsCreated := [], pngsWritten := [], manifestsWritten := [], printed := [] },
       some "FileNotFoundError: [Errno 2] No such file or directory: /tmp/pawn.png")
  | some pawn =>
      ({ dirsCreated := [icon_dir]
         pngsWritten := sizes.map fun size =>
           (icon_dir ++ "/" ++ iconFileName size, (create_icon size pawn resample blend).img)
         manifestsWritten := [(icon_dir ++ "/Contents.json", contents)]
         printed := (sizes.map fun size =>
           "Created " ++ toString size ++ "x" ++ toString size) ++ ["Done!"] },
       none)

/-- A trivial resampling kernel, used to instantiate theorems at a concrete
input. -/
def resample0 : Image → ℕ → ℕ → ℕ → ℕ → Rgba := fun _ _ _ _ _ => (0, 0, 0, 0)

/-- A trivial compositing function, used to instantiate theorems at a
concrete input. -/
def blend0 : Rgba → Rgba → Rgba := fun p _ => p

/-- A concrete 1×1 source image, used to instantiate theorems. -/
def pawn0 : Image where
  width := 1
  height := 1
  pixel := fun _ _ => (255, 255, 255, 255)

/-! ### Arithmetic facts about margin and radius -/

lemma margin_nonneg (s : ℕ) : 0 ≤ margin s := by
  rw [margin_eq]; exact Int.natCast_nonneg _

lemma radius_nonneg (s : ℕ) : 0 ≤ radius s := by
  rw [radius_eq]; exact Int.natCast_nonneg _

lemma radius_pos (s : ℕ) (h : 6 ≤ s) : 1 ≤ radius s := by
  rw [radius_eq]; omega

lemma two_mul_margin_add_radius_le (s : ℕ) : 2 * (margin s + radius s) ≤ (s : ℤ) := by
  rw [margin_eq, radius_eq]; omega

/-! ### Claims -/

/-- Claim C1: for every requested size `N` in the fixed size list
`[16, 32, 64, 128, 256, 512, 1024]`, the image produced by
`create_icon(N, pawn)` and saved as `icon_NxN.png` is exactly `N` pixels
wide and `N` pixels tall. -/
theorem C1_png_dimensions (resample : Image → ℕ → ℕ → ℕ → ℕ → Rgba)
    (blend : Rgba → Rgba → Rgba) (pawn : Image) (N : ℕ) (hN : N ∈ sizes) :
    ∃ img : Image,
      (icon_dir ++ "/" ++ iconFileName N, img)
          ∈ (run_main resample blend (some pawn)).1.pngsWritten
      ∧ img.width = N ∧ img.height = N :=
  ⟨(create_icon N pawn resample blend).img, List.mem_map_of_mem _ hN, rfl, rfl⟩

/-- Witness for C1 at the concrete size 16. -/
theorem C1_png_dimensions_witness :
    16 ∈ sizes ∧
      ∃ img : Image,
        (icon_dir ++ "/" ++ iconFileName 16, img)
            ∈ (run_main resample0 blend0 (some pawn0)).1.pngsWritten
        ∧ img.width = 16 ∧ img.height = 16 :=
  ⟨by decide, C1_png_dimensions resample0 blend0 pawn0 16 (by decide)⟩

/-- Claim C2: for every size and source image, `create_icon` pastes the
resized foreground, of side `int(size * 0.7)`, at the same offset on both
axes, and that offset is `(size - int(size * 0.7)) // 2`, which is within
rounding tolerance (distance at most 1/2) of `(size - pawn_size) / 2`. -/
theorem C2_centered_paste (size : ℕ) (pawn : Image)
    (resample : Image → ℕ → ℕ → ℕ → ℕ → Rgba) (blend : Rgba → Rgba → Rgba) :
    (create_icon size pawn resample blend).pawnResized.width = pawnSize size
    ∧ (create_icon size pawn resample blend).pawnResized.height = pawnSize size
    ∧ (create_icon size pawn resample blend).pasteOffset.1
        = (create_icon size pawn resample blend).pasteOffset.2
    ∧ (create_icon size pawn resample blend).pasteOffset.1 = (size - pawnSize size) / 2
    ∧ 2 * (create_icon size pawn resample blend).pasteOffset.1 ≤ size - pawnSize size
    ∧ size - pawnSize size ≤ 2 * (create_icon size pawn resample blend).pasteOffset.1 + 1 := by
  refine ⟨rfl, rfl, rfl, rfl, ?_, ?_⟩
  · show 2 * ((size - pawnSize size) / 2) ≤ size - pawnSize size
    omega
  · show size - pawnSize size ≤ 2 * ((size - pawnSize size) / 2) + 1
    omega

/-- Claim C3: the manifest written to `Contents.json` has exactly 10
filename/idiom/scale/size records in its `images` array, for any input. -/
theorem C3_manifest_count (resample : Image → ℕ → ℕ → ℕ → ℕ → Rgba)
    (blend : Rgba → Rgba → Rgba) (pawn : Image) :
    ((run_main resample blend (some pawn)).1.manifestsWritten.map
      fun m => m.2.images.length) = [10] := rfl

/-- Claim C4: every PNG filename written by the size loop appears in the
manifest's `images` array, and every filename referenced by the manifest is
one of the generated PNGs. -/
theorem C4_manifest_filenames :
    (∀ N ∈ sizes, ∃ e ∈ contentsImages, e.filename = iconFileName N)
    ∧ ∀ e ∈ contentsImages, ∃ N ∈ sizes, e.filename = iconFileName N := by
  decide

/-- Witness for C4 at the concrete size 16. -/
theorem C4_manifest_filenames_witness :
    16 ∈ sizes ∧ ∃ e ∈ contentsImages, e.filename = iconFileName 16 :=
  ⟨by decide, C4_manifest_filenames.1 16 (by decide)⟩

/-- Claim C5 as stated is false: a complete run of `main` writes one PNG per
requested size and additionally `Contents.json`, so 8 files, not 7. -/
theorem C5_output_count_counterexample :
    (run_main resample0 blend0 (some pawn0)).1.pngsWritten.length
        + (run_main resample0 blend0 (some pawn0)).1.manifestsWritten.length = 8
    ∧ sizes.length = 7
    ∧ (8 : ℕ) ≠ 7 :=
  ⟨rfl, rfl, by decide⟩

/-- Claim C5, amended: the number of PNG files written equals the number of
requested sizes, and the total number of files written in a complete run is
the number of requested sizes plus one (the manifest). -/
theorem C5_output_count_amended (resample : Image → ℕ → ℕ → ℕ → ℕ → Rgba)
    (blend : Rgba → Rgba → Rgba) (pawn : Image) :
    (run_main resample blend (some pawn)).1.pngsWritten.length = sizes.length
    ∧ (run_main resample blend (some pawn)).1.pngsWritten.length
        + (run_main resample blend (some pawn)).1.manifestsWritten.length
        = sizes.length + 1 :=
  ⟨rfl, rfl⟩

/-- Claim C6: if the source image at the fixed input path is missing, the
run aborts with an error message before `os.makedirs` and before the save
loop: no directory is created and no PNG or manifest file is written. -/
theorem C6_missing_input_aborts (resample : Image → ℕ → ℕ → ℕ → ℕ → Rgba)
    (blend : Rgba → Rgba → Rgba) :
    run_main resample blend none
      = ({ dirsCreated := [], pngsWritten := [], manifestsWritten := [], printed := [] },
         some "FileNotFoundError: [Errno 2] No such file or directory: /tmp/pawn.png") := rfl

/-- Claim C7: a run of `main` is a function of the source image alone (the
embedding of `main` takes no other input; there are no flags or environment
variables to model), so byte-identical source images give identical output
PNGs and manifest. -/
theorem C7_deterministic (resample : Image → ℕ → ℕ → ℕ → ℕ → Rgba)
    (blend : Rgba → Rgba → Rgba) (p₁ p₂ : Option Image) (h : p₁ = p₂) :
    run_main resample blend p₁ = run_main resample blend p₂ := by
  rw [h]

/-- Witness for C7 at a concrete source image. -/
theorem C7_deterministic_witness :
    some pawn0 = some pawn0
    ∧ run_main resample0 blend0 (some pawn0) = run_main resample0 blend0 (some pawn0) :=
  ⟨rfl, C7_deterministic resample0 blend0 (some pawn0) (some pawn0) rfl⟩

/-! ### Corner geometry -/

lemma sq_corner_not_le {m rad : ℤ} (hm : 0 ≤ m) (hr : 1 ≤ rad) :
    ¬((m + rad) ^ 2 + (m + rad) ^ 2 ≤ rad ^ 2) := by
  nlinarith

lemma inRect_corner_tl (N : ℕ) (h6 : 6 ≤ N) : inRect N 0 0 = false := by
  have hm := margin_nonneg N
  have hr := radius_pos N h6
  unfold inRect
  rw [if_pos (show (0 : ℤ) < margin N + radius N ∧ (0 : ℤ) < margin N + radius N by
    constructor <;> omega)]
  apply decide_eq_false
  intro hle
  rw [show ((0 : ℤ) - margin N - radius N) ^ 2 = (margin N + radius N) ^ 2 by ring] at hle
  exact sq_corner_not_le hm hr hle

lemma inRect_corner_tr (N : ℕ) (h6 : 6 ≤ N) : inRect N ((N : ℤ) - 1) 0 = false := by
  have hm := margin_nonneg N
  have hr := radius_pos N h6
  have h5 := two_mul_margin_add_radius_le N
  unfold inRect
  rw [if_neg (show ¬((N : ℤ) - 1 < margin N + radius N ∧ (0 : ℤ) < margin N + radius N) by
      omega),
    if_pos (show ((N : ℤ) - 1 > (N : ℤ) - margin N - radius N - 1
        ∧ (0 : ℤ) < margin N + radius N) by constructor <;> omega)]
  apply decide_eq_false
  intro hle
  rw [show ((N : ℤ) - 1 - ((N : ℤ) - margin N - radius N - 1)) ^ 2
        = (margin N + radius N) ^ 2 by ring,
    show ((0 : ℤ) - margin N - radius N) ^ 2 = (margin N + radius N) ^ 2 by ring] at hle
  exact sq_corner_not_le hm hr hle

lemma inRect_corner_bl (N : ℕ) (h6 : 6 ≤ N) : inRect N 0 ((N : ℤ) - 1) = false := by
  have hm := margin_nonneg N
  have hr := radius_pos N h6
  have h5 := two_mul_margin_add_radius_le N
  unfold inRect
  rw [if_neg (show ¬((0 : ℤ) < margin N + radius N ∧ (N : ℤ) - 1 < margin N + radius N) by
      omega),
    if_neg (show ¬((0 : ℤ) > (N : ℤ) - margin N - radius N - 1
        ∧ (N : ℤ) - 1 < margin N + radius N) by omega),
    if_pos (show ((0 : ℤ) < margin N + radius N
        ∧ (N : ℤ) - 1 > (N : ℤ) - margin N - radius N - 1) by constructor <;> omega)]
  apply decide_eq_false
  intro hle
  rw [show ((0 : ℤ) - margin N - radius N) ^ 2 = (margin N + radius N) ^ 2 by ring,
    show ((N : ℤ) - 1 - ((N : ℤ) - margin N - radius N - 1)) ^ 2
        = (margin N + radius N) ^ 2 by ring] at hle
  exact sq_corner_not_le hm hr hle

lemma inRect_corner_br (N : ℕ) (h6 : 6 ≤ N) :
    inRect N ((N : ℤ) - 1) ((N : ℤ) - 1) = false := by
  have hm := margin_nonneg N
  have hr := radius_pos N h6
  have h5 := two_mul_margin_add_radius_le N
  unfold inRect
  rw [if_neg (show ¬((N : ℤ) - 1 < margin N + radius N
        ∧ (N : ℤ) - 1 < margin N + radius N) by omega),
    if_neg (show ¬((N : ℤ) - 1 > (N : ℤ) - margin N - radius N - 1
        ∧ (N : ℤ) - 1 < margin N + radius N) by omega),
    if_neg (show ¬((N : ℤ) - 1 < margin N + radius N
        ∧ (N : ℤ) - 1 > (N : ℤ) - margin N - radius N - 1) by omega),
    if_pos (show ((N : ℤ) - 1 > (N : ℤ) - margin N - radius N - 1
        ∧ (N : ℤ) - 1 > (N : ℤ) - margin N - radius N - 1) by constructor <;> omega)]
  apply decide_eq_false
  intro hle
  rw [show ((N : ℤ) - 1 - ((N : ℤ) - margin N - radius N - 1)) ^ 2
        = (margin N + radius N) ^ 2 by ring] at hle
  exact sq_corner_not_le hm hr hle

lemma pixel_eq_bg_of_inRect_false {N x y : ℕ} (h : inRect N (x : ℤ) (y : ℤ) = false) :
    (create_rounded_gradient N).pixel x y = (0, 0, 0, 0) := by
  simp [create_rounded_gradient, h]

/-- Claim C10: for every size `N ≥ 6` (so that the corner radius
`int(N * 0.18)` is at least one pixel), the four extreme corner pixels of
`create_rounded_gradient(N)` are fully transparent. -/
theorem C10_corners_transparent (N : ℕ) (hN : 6 ≤ N) :
    ((create_rounded_gradient N).pixel 0 0).2.2.2 = 0
    ∧ ((create_rounded_gradient N).pixel (N - 1) 0).2.2.2 = 0
    ∧ ((create_rounded_gradient N).pixel 0 (N - 1)).2.2.2 = 0
    ∧ ((create_rounded_gradient N).pixel (N - 1) (N - 1)).2.2.2 = 0 := by
  have hc : ((N - 1 : ℕ) : ℤ) = (N : ℤ) - 1 := by omega
  have h1 : inRect N ((0 : ℕ) : ℤ) ((0 : ℕ) : ℤ) = false := by
    exact_mod_cast inRect_corner_tl N hN
  have h2 : inRect N ((N - 1 : ℕ) : ℤ) ((0 : ℕ) : ℤ) = false := by
    rw [hc]; exact_mod_cast inRect_corner_tr N hN
  have h3 : inRect N ((0 : ℕ) : ℤ) ((N - 1 : ℕ) : ℤ) = false := by
    rw [hc]; exact_mod_cast inRect_corner_bl N hN
  have h4 : inRect N ((N - 1 : ℕ) : ℤ) ((N - 1 : ℕ) : ℤ) = false := by
    rw [hc]; exact_mod_cast inRect_corner_br N hN
  exact ⟨by rw [pixel_eq_bg_of_inRect_false h1],
    by rw [pixel_eq_bg_of_inRect_false h2],
    by rw [pixel_eq_bg_of_inRect_false h3],
    by rw [pixel_eq_bg_of_inRect_false h4]⟩

/-- Witness for C10 at the concrete size 6. -/
theorem C10_corners_transparent_witness :
    6 ≤ 6 ∧
      (((create_rounded_gradient 6).pixel 0 0).2.2.2 = 0
        ∧ ((create_rounded_gradient 6).pixel (6 - 1) 0).2.2.2 = 0
        ∧ ((create_rounded_gradient 6).pixel 0 (6 - 1)).2.2.2 = 0
        ∧ ((create_rounded_gradient 6).pixel (6 - 1) (6 - 1)).2.2.2 = 0) :=
  ⟨by decide, C10_corners_transparent 6 (by decide)⟩

/-- Claim C8 as stated is false at size 46: the opaque pixel `(23, 45)` of
`create_rounded_gradient(46)` has colour `(190, 110, 40)`, below the claimed
channel lower bounds `(191, 111, 41)`. -/
theorem C8_channel_range_counterexample :
    ((create_rounded_gradient 46).pixel 23 45).2.2.2 = 255
    ∧ ((create_rounded_gradient 46).pixel 23 45).1 = 190
    ∧ ((create_rounded_gradient 46).pixel 23 45).2.1 = 110
    ∧ ((create_rounded_gradient 46).pixel 23 45).2.2.1 = 40
    ∧ ¬(191 ≤ ((create_rounded_gradient 46).pixel 23 45).1
        ∧ 111 ≤ ((create_rounded_gradient 46).pixel 23 45).2.1
        ∧ 41 ≤ ((create_rounded_gradient 46).pixel 23 45).2.2.1) := by
  have hm : margin 46 = 0 := by rw [margin_eq]; decide
  have hr : radius 46 = 8 := by rw [radius_eq]; decide
  have hg : gradColor 46 45 = (190, 110, 40) := by
    rw [gradColor_eq 46 45 (by decide) (by decide)]
  have hin : inRect 46 23 45 = true := by
    unfold inRect
    rw [hm, hr]
    decide
  have hpix : (create_rounded_gradient 46).pixel 23 45
      = ((gradColor 46 45).1, (gradColor 46 45).2.1, (gradColor 46 45).2.2, 255) := by
    simp only [create_rounded_gradient]
    rw [if_pos ⟨by decide, by decide, hin⟩]
  rw [hpix, hg]
  decide

/-- Claim C8, amended: every pixel of `create_rounded_gradient(N)` has alpha
exactly 0 or 255; an opaque pixel in row `y` has exactly the colour
`(int(235 - 45 * y / N), int(145 - 35 * y / N), int(65 - 25 * y / N))`, so
the channels of an opaque pixel lie in `[190, 235]`, `[110, 145]` and
`[40, 65]` respectively (the stated lower bounds 191/111/41 are off by one:
the bottom rows reach 190/110/40). -/
theorem C8_row_colors_amended (N x y : ℕ) (hN : 1 ≤ N) (hx : x < N) (hy : y < N) :
    (((create_rounded_gradient N).pixel x y).2.2.2 = 0
      ∨ ((create_rounded_gradient N).pixel x y).2.2.2 = 255)
    ∧ (((create_rounded_gradient N).pixel x y).2.2.2 = 255 →
        (create_rounded_gradient N).pixel x y
          = ((pyInt ((235 : ℚ) - (y : ℚ) / (N : ℚ) * 45)).toNat,
             (pyInt ((145 : ℚ) - (y : ℚ) / (N : ℚ) * 35)).toNat,
             (pyInt ((65 : ℚ) - (y : ℚ) / (N : ℚ) * 25)).toNat, 255)
        ∧ 190 ≤ ((create_rounded_gradient N).pixel x y).1
        ∧ ((create_rounded_gradient N).pixel x y).1 ≤ 235
        ∧ 110 ≤ ((create_rounded_gradient N).pixel x y).2.1
        ∧ ((create_rounded_gradient N).pixel x y).2.1 ≤ 145
        ∧ 40 ≤ ((create_rounded_gradient N).pixel x y).2.2.1
        ∧ ((create_rounded_gradient N).pixel x y).2.2.1 ≤ 65) := by
  have hNpos : 0 < N := by omega
  by_cases h : x < N ∧ y < N ∧ inRect N (x : ℤ) (y : ℤ) = true
  · have hpix : (create_rounded_gradient N).pixel x y
        = ((gradColor N y).1, (gradColor N y).2.1, (gradColor N y).2.2, 255) := by
      simp only [create_rounded_gradient]
      rw [if_pos h]
    have hg := gradColor_eq N y hNpos hy
    rw [hpix]
    refine ⟨Or.inr rfl, fun _ => ⟨rfl, ?_, ?_, ?_, ?_, ?_, ?_⟩⟩
    · show 190 ≤ (gradColor N y).1
      rw [hg]
      show 190 ≤ (235 * N - 45 * y) / N
      rw [Nat.le_div_iff_mul_le hNpos]
      omega
    · show (gradColor N y).1 ≤ 235
      rw [hg]
      show (235 * N - 45 * y) / N ≤ 235
      calc (235 * N - 45 * y) / N ≤ 235 * N / N := Nat.div_le_div_right (by omega)
        _ = 235 := Nat.mul_div_cancel 235 hNpos
    · show 110 ≤ (gradColor N y).2.1
      rw [hg]
      show 110 ≤ (145 * N - 35 * y) / N
      rw [Nat.le_div_iff_mul_le hNpos]
      omega
    · show (gradColor N y).2.1 ≤ 145
      rw [hg]
      show (145 * N - 35 * y) / N ≤ 145
      calc (145 * N - 35 * y) / N ≤ 145 * N / N := Nat.div_le_div_right (by omega)
        _ = 145 := Nat.mul_div_cancel 145 hNpos
    · show 40 ≤ (gradColor N y).2.2
      rw [hg]
      show 40 ≤ (65 * N - 25 * y) / N
      rw [Nat.le_div_iff_mul_le hNpos]
      omega
    · show (gradColor N y).2.2 ≤ 65
      rw [hg]
      show (65 * N - 25 * y) / N ≤ 65
      calc (65 * N - 25 * y) / N ≤ 65 * N / N := Nat.div_le_div_right (by omega)
        _ = 65 := Nat.mul_div_cancel 65 hNpos
  · have hpix : (create_rounded_gradient N).pixel x y = (0, 0, 0, 0) := by
      simp only [create_rounded_gradient]
      rw [if_neg h]
    rw [hpix]
    exact ⟨Or.inl rfl, fun hc => absurd hc (by decide)⟩

/-- Witness for the amended C8 at the concrete pixel `(0, 0)` of size 1. -/
theorem C8_row_colors_amended_witness :
    (1 : ℕ) ≤ 1 ∧ (0 : ℕ) < 1 ∧
      ((((create_rounded_gradient 1).pixel 0 0).2.2.2 = 0
          ∨ ((create_rounded_gradient 1).pixel 0 0).2.2.2 = 255)
        ∧ (((create_rounded_gradient 1).pixel 0 0).2.2.2 = 255 →
            (create_rounded_gradient 1).pixel 0 0
              = ((pyInt ((235 : ℚ) - ((0 : ℕ) : ℚ) / ((1 : ℕ) : ℚ) * 45)).toNat,
                 (pyInt ((145 : ℚ) - ((0 : ℕ) : ℚ) / ((1 : ℕ) : ℚ) * 35)).toNat,
                 (pyInt ((65 : ℚ) - ((0 : ℕ) : ℚ) / ((1 : ℕ) : ℚ) * 25)).toNat, 255)
            ∧ 190 ≤ ((create_rounded_gradient 1).pixel 0 0).1
            ∧ ((create_rounded_gradient 1).pixel 0 0).1 ≤ 235
            ∧ 110 ≤ ((create_rounded_gradient 1).pixel 0 0).2.1
            ∧ ((create_rounded_gradient 1).pixel 0 0).2.1 ≤ 145
            ∧ 40 ≤ ((create_rounded_gradient 1).pixel 0 0).2.2.1
            ∧ ((create_rounded_gradient 1).pixel 0 0).2.2.1 ≤ 65)) :=
  ⟨le_refl 1, by decide, C8_row_colors_amended 1 0 0 (le_refl 1) (by decide) (by decide)⟩

/-! ### Left-right mirror symmetry -/

lemma inRect_mirror (N : ℕ) (x y : ℤ) :
    inRect N ((N : ℤ) - 1 - x) y = inRect N x y := by
  have hm := margin_nonneg N
  have hr := radius_nonneg N
  have h5 := two_mul_margin_add_radius_le N
  have Ha : ((N : ℤ) - 1 - x < margin N + radius N)
      ↔ ((N : ℤ) - margin N - radius N - 1 < x) := by omega
  have Hb : ((N : ℤ) - margin N - radius N - 1 < (N : ℤ) - 1 - x)
      ↔ (x < margin N + radius N) := by omega
  have H5 : ((N : ℤ) - 1 - x < margin N ∨ (N : ℤ) - margin N ≤ (N : ℤ) - 1 - x
        ∨ y < margin N ∨ (N : ℤ) - margin N ≤ y)
      ↔ (x < margin N ∨ (N : ℤ) - margin N ≤ x
        ∨ y < margin N ∨ (N : ℤ) - margin N ≤ y) := by omega
  have S1 : ((N : ℤ) - 1 - x - margin N - radius N) ^ 2
      = (x - ((N : ℤ) - margin N - radius N - 1)) ^ 2 := by ring
  have S2 : ((N : ℤ) - 1 - x - ((N : ℤ) - margin N - radius N - 1)) ^ 2
      = (x - margin N - radius N) ^ 2 := by ring
  unfold inRect
  simp only [gt_iff_lt, ge_iff_le, Ha, Hb, H5, S1, S2]
  by_cases hxa : x < margin N + radius N <;>
    by_cases hxb : (N : ℤ) - margin N - radius N - 1 < x <;>
      by_cases hy1 : y < margin N + radius N <;>
        by_cases hy2 : (N : ℤ) - margin N - radius N - 1 < y <;>
          first
            | (exfalso; omega)
            | simp [hxa, hxb, hy1, hy2]

/-- Claim C9: for every size `N`, the bitmap returned by
`create_rounded_gradient(N)` is left-right mirror symmetric: the pixel at
`(x, y)` equals the pixel at `(N - 1 - x, y)` for all `x, y < N`. -/
theorem C9_mirror_symmetric (N x y : ℕ) (hx : x < N) (hy : y < N) :
    (create_rounded_gradient N).pixel x y
      = (create_rounded_gradient N).pixel (N - 1 - x) y := by
  have hcast : ((N - 1 - x : ℕ) : ℤ) = (N : ℤ) - 1 - (x : ℤ) := by omega
  have hx' : N - 1 - x < N := by omega
  simp only [create_rounded_gradient]
  rw [hcast, inRect_mirror N x y]
  by_cases hin : inRect N (x : ℤ) (y : ℤ) = true
  · rw [if_pos ⟨hx, hy, hin⟩, if_pos ⟨hx', hy, hin⟩]
  · rw [if_neg (fun hcond => hin hcond.2.2), if_neg (fun hcond => hin hcond.2.2)]

/-- Witness for C9 at size 4, pixel `(1, 2)` against pixel `(2, 2)`. -/
theorem C9_mirror_symmetric_witness :
    (1 : ℕ) < 4 ∧ (2 : ℕ) < 4 ∧
      (create_rounded_gradient 4).pixel 1 2 = (create_rounded_gradient 4).pixel (4 - 1 - 1) 2 :=
  ⟨by decide, by decide, C9_mirror_symmetric 4 1 2 (by decide) (by decide)⟩

end LichessIcon
